import Mathlib

/-!
Verification of the POI proximity feature engine of the
`Price_house_ponta_grossa` repository: a shallow embedding in Lean 4 of the
feature-engineering functions of `src/features.py`, `src/predict.py` and
`streamlit_app/app2.py`, together with theorems settling the specification's
claims about them.

Modelling conventions:
* pandas/numpy `NaN` (missing value) is modelled as `none : Option ℝ`;
  IEEE NaN-propagation through `exp`, `*`, `+`, `-`, `/` is modelled by
  `Option.map` / none-absorbing operators.
* A dataframe column is a `List (Option ℝ)`; a POI coordinate set is a
  `List (ℝ × ℝ)` of (lat, lon) pairs already converted to radians (the code
  applies `np.radians` before building the `BallTree`).
* `BallTree(metric="haversine")` queries are embedded by their metric
  semantics: unit-sphere haversine distance, `query` returning the minimum,
  `query_radius(count_only=True)` returning the count at distance ≤ r.
-/

namespace PriceHouse

/- ============================================================
   String utilities used by `classificar_tipo_imovel`
   (Python `str.lower` and the `in` substring test).
   ============================================================ -/

/-- Python `str.lower()` (ASCII case folding as used by the keyword tests). -/
def lowerStr (s : String) : String :=
  String.mk (s.data.map Char.toLower)

/-- `needle` occurs at the head of `hay` (helper for the substring test). -/
def listPrefixOf : List Char → List Char → Bool
  | [], _ => true
  | _ :: _, [] => false
  | a :: as, b :: bs => a == b && listPrefixOf as bs

/-- `needle` occurs somewhere in `hay` (Python `needle in hay`). -/
def listSub (needle : List Char) : List Char → Bool
  | [] => needle.isEmpty
  | b :: bs => listPrefixOf needle (b :: bs) || listSub needle bs

/-- Python `needle in hay` on strings. -/
def strIn (needle hay : String) : Bool :=
  listSub needle.data hay.data

/- ============================================================
   `classificar_tipo_imovel` (src/features.py lines 70-87).
   The input is `Option String`: `none` models a NaN cell
   (`pd.isna(tipo)` is true exactly on missing input).
   ============================================================ -/

/-- Keyword group for the apartment family (src/features.py line 78). -/
def apartamentoKeywords : List String :=
  ["apartamento", "cobertura", "duplex", "flat", "kitnet"]

/-- Keyword group for the house family (src/features.py line 80). -/
def casaKeywords : List String :=
  ["casa", "sobrado", "vila"]

/-- Keyword group for the commercial family (src/features.py line 82). -/
def comercialKeywords : List String :=
  ["comercial", "loja", "box", "galpão", "deposito", "depósito", "sala", "conjunto"]

/-- `classificar_tipo_imovel` from src/features.py lines 70-87: free-text
property type → one of six category strings, first matching keyword group
wins, missing input → "outros". -/
def classificar_tipo_imovel (tipoIn : Option String) : String :=
  match tipoIn with
  | none => "outros"
  | some t =>
    let tipo := lowerStr t
    if strIn "terreno" tipo || strIn "lote" tipo then "terreno"
    else if apartamentoKeywords.any (fun x => strIn x tipo) then "apartamento"
    else if casaKeywords.any (fun x => strIn x tipo) then "casa"
    else if comercialKeywords.any (fun x => strIn x tipo) then "comercial"
    else if strIn "prédio" tipo || strIn "edificio" tipo || strIn "edifício" tipo then "predio"
    else "outros"

/-- The six possible results of `classificar_tipo_imovel`. -/
def tipoLabels : List String :=
  ["terreno", "apartamento", "casa", "comercial", "predio", "outros"]

/- ============================================================
   Area buckets.
   `add_faixa_area` (src/features.py lines 94-103) uses
   `pd.cut(area, bins=[0,50,80,120,200,400,inf], labels=AREA_LABELS)`:
   right-closed intervals (0,50], (50,80], ..., (400,inf); a value
   outside every bin (in particular area ≤ 0) gets NaN (`none`).
   `predict` (src/predict.py lines 101-115) re-derives the label with
   an if/elif chain on `area ≤ 50`, `area ≤ 80`, ....
   ============================================================ -/

/-- The six area-bucket labels (`AREA_LABELS`, src/features.py line 95). -/
def AREA_LABELS : List String :=
  ["Até 50", "50–80", "80–120", "120–200", "200–400", "400+"]

/-- `pd.cut` of `area_m2` over bins [0, 50, 80, 120, 200, 400, inf]
(src/features.py lines 94-103): right-closed bins, `none` when the value
falls in no bin. -/
noncomputable def cut_faixa_area (a : ℝ) : Option String :=
  if 0 < a ∧ a ≤ 50 then some "Até 50"
  else if 50 < a ∧ a ≤ 80 then some "50–80"
  else if 80 < a ∧ a ≤ 120 then some "80–120"
  else if 120 < a ∧ a ≤ 200 then some "120–200"
  else if 200 < a ∧ a ≤ 400 then some "200–400"
  else if 400 < a then some "400+"
  else none

/-- The if/elif chain of `predict` deriving `faixa_area` when absent
(src/predict.py lines 101-115). -/
noncomputable def predict_faixa_area (a : ℝ) : String :=
  if a ≤ 50 then "Até 50"
  else if a ≤ 80 then "50–80"
  else if a ≤ 120 then "80–120"
  else if a ≤ 200 then "120–200"
  else if a ≤ 400 then "200–400"
  else "400+"

/- ============================================================
   NaN-propagating float arithmetic (numpy semantics).
   `none` is NaN; every arithmetic operation and `np.exp`
   return NaN when any operand is NaN.
   ============================================================ -/

/-- numpy `exp` on a possibly-NaN value. -/
noncomputable def oExp (x : Option ℝ) : Option ℝ :=
  x.map Real.exp

/-- Multiplication of a scalar by a possibly-NaN value. -/
def oMul (c : ℝ) (x : Option ℝ) : Option ℝ :=
  x.map (fun v => c * v)

/-- Division of a possibly-NaN value by a scalar. -/
noncomputable def oDiv (x : Option ℝ) (c : ℝ) : Option ℝ :=
  x.map (fun v => v / c)

/-- Negation of a possibly-NaN value. -/
def oNeg (x : Option ℝ) : Option ℝ :=
  x.map (fun v => -v)

/-- Addition where NaN absorbs (numpy: `nan + x = nan`). -/
def oAdd (x y : Option ℝ) : Option ℝ :=
  match x, y with
  | some a, some b => some (a + b)
  | _, _ => none

/-- Subtraction where NaN absorbs (numpy: `nan - x = nan`). -/
def oSub (x y : Option ℝ) : Option ℝ :=
  match x, y with
  | some a, some b => some (a - b)
  | _, _ => none

/- ============================================================
   The proximity feature vector: the 14 `dist_*` / `qtd_*` values
   produced per record (distance possibly NaN, count always defined).
   ============================================================ -/

/-- The per-record proximity features consumed by the score formulas:
the seven `dist_*_mais_proximo` columns (possibly NaN) and the seven
`qtd_*` columns. -/
structure PoiFeatures where
  dist_escolas_privadas_mais_proximo : Option ℝ
  qtd_escolas_privadas_500m : ℝ
  dist_escola_publicas_mais_proximo : Option ℝ
  qtd_escola_publicas_500m : ℝ
  dist_hospital_mais_proximo : Option ℝ
  qtd_hospital_1000m : ℝ
  dist_mercado_mais_proximo : Option ℝ
  qtd_mercado_500m : ℝ
  dist_farmacia_mais_proximo : Option ℝ
  qtd_farmacia_300m : ℝ
  dist_parque_mais_proximo : Option ℝ
  qtd_parque_1000m : ℝ
  dist_policia_mais_proximo : Option ℝ
  qtd_policia_500m : ℝ

/-- The eight score columns created by `add_poi_scores`. -/
structure Scores where
  score_escola_privada : Option ℝ
  score_escola_publica : Option ℝ
  score_hospitais : Option ℝ
  score_mercado : Option ℝ
  score_farmacia : Option ℝ
  score_parque : Option ℝ
  score_seguranca : Option ℝ
  score_educacao : Option ℝ

/-- The seven scores returned by the Streamlit path's `calcular_scores`
(app2.py has no `score_educacao`). -/
structure ScoresApp where
  score_escola_privada : Option ℝ
  score_escola_publica : Option ℝ
  score_hospitais : Option ℝ
  score_mercado : Option ℝ
  score_farmacia : Option ℝ
  score_parque : Option ℝ
  score_seguranca : Option ℝ

/-- `add_poi_scores` (src/features.py lines 16-63): the training-time bulk
score computation, `weight_exp * exp(-dist/decay) + weight_count * qtd`
per category plus the composite education score. -/
noncomputable def add_poi_scores (f : PoiFeatures) : Scores :=
  let ep := oAdd (oMul 1.2 (oExp (oDiv (oNeg f.dist_escolas_privadas_mais_proximo) 600)))
                 (some (0.6 * f.qtd_escolas_privadas_500m))
  let pu := oAdd (oMul 0.6 (oExp (oDiv (oNeg f.dist_escola_publicas_mais_proximo) 600)))
                 (some (0.2 * f.qtd_escola_publicas_500m))
  { score_escola_privada := ep
    score_escola_publica := pu
    score_hospitais :=
      oAdd (oMul 0.8 (oExp (oDiv (oNeg f.dist_hospital_mais_proximo) 1200)))
           (some (0.4 * f.qtd_hospital_1000m))
    score_mercado :=
      oAdd (oMul 1.0 (oExp (oDiv (oNeg f.dist_mercado_mais_proximo) 400)))
           (some (0.4 * f.qtd_mercado_500m))
    score_farmacia :=
      oAdd (oMul 0.6 (oExp (oDiv (oNeg f.dist_farmacia_mais_proximo) 300)))
           (some (0.2 * f.qtd_farmacia_300m))
    score_parque :=
      oAdd (oMul 1.2 (oExp (oDiv (oNeg f.dist_parque_mais_proximo) 1200)))
           (some (0.8 * f.qtd_parque_1000m))
    score_seguranca :=
      oAdd (oMul 1.0 (oExp (oDiv (oNeg f.dist_policia_mais_proximo) 1500)))
           (some (0.3 * f.qtd_policia_500m))
    score_educacao := oSub ep (oMul 0.2 pu) }

/-- `calcular_scores` (streamlit_app/app2.py lines 171-221): the
single-record inference-path score computation, same formulas per category. -/
noncomputable def calcular_scores (f : PoiFeatures) : ScoresApp :=
  { score_escola_privada :=
      oAdd (oMul 1.2 (oExp (oDiv (oNeg f.dist_escolas_privadas_mais_proximo) 600)))
           (some (0.6 * f.qtd_escolas_privadas_500m))
    score_escola_publica :=
      oAdd (oMul 0.6 (oExp (oDiv (oNeg f.dist_escola_publicas_mais_proximo) 600)))
           (some (0.2 * f.qtd_escola_publicas_500m))
    score_hospitais :=
      oAdd (oMul 0.8 (oExp (oDiv (oNeg f.dist_hospital_mais_proximo) 1200)))
           (some (0.4 * f.qtd_hospital_1000m))
    score_mercado :=
      oAdd (oMul 1.0 (oExp (oDiv (oNeg f.dist_mercado_mais_proximo) 400)))
           (some (0.4 * f.qtd_mercado_500m))
    score_farmacia :=
      oAdd (oMul 0.6 (oExp (oDiv (oNeg f.dist_farmacia_mais_proximo) 300)))
           (some (0.2 * f.qtd_farmacia_300m))
    score_parque :=
      oAdd (oMul 1.2 (oExp (oDiv (oNeg f.dist_parque_mais_proximo) 1200)))
           (some (0.8 * f.qtd_parque_1000m))
    score_seguranca :=
      oAdd (oMul 1.0 (oExp (oDiv (oNeg f.dist_policia_mais_proximo) 1500)))
           (some (0.3 * f.qtd_policia_500m)) }

/-- The plain defined-distance score formula of the spec:
`weight_exp * exp(-distance/decay) + weight_count * count`. -/
noncomputable def score_formula (we decay wc d c : ℝ) : ℝ :=
  we * Real.exp (-d / decay) + wc * c

/-- One POI category's compiled-in constants: exponential weight, decay
length (m), count weight, search radius (m). -/
structure CatConfig where
  we : ℝ
  decay : ℝ
  wc : ℝ
  radius : ℝ

/-- The seven categories' compiled-in constants, in the order private
school, public school, hospital, market, pharmacy, park, police
(weights/decays from features.py lines 23-56, radii from app2.py
lines 115-123). -/
def catConfigs : List CatConfig :=
  [⟨1.2, 600, 0.6, 500⟩, ⟨0.6, 600, 0.2, 500⟩, ⟨0.8, 1200, 0.4, 1000⟩,
   ⟨1.0, 400, 0.4, 500⟩, ⟨0.6, 300, 0.2, 300⟩, ⟨1.2, 1200, 0.8, 1000⟩,
   ⟨1.0, 1500, 0.3, 500⟩]

/- ============================================================
   Spatial queries (app2.py `calcular_poi_features`, lines 143-167).
   Coordinates are (lat, lon) pairs in radians.  `BallTree` with
   `metric="haversine"` computes the unit-sphere great-circle
   distance 2*arcsin(sqrt(hav)); `query(k=1)` returns the minimum,
   `query_radius(r, count_only=True)` counts points at distance ≤ r.
   ============================================================ -/

/-- Unit-sphere haversine distance between two (lat, lon) pairs in
radians: `2 * arcsin(sqrt(sin²(Δlat/2) + cos lat₁ · cos lat₂ · sin²(Δlon/2)))`,
the metric used by `BallTree(metric="haversine")`. -/
noncomputable def haversineUnit (a b : ℝ × ℝ) : ℝ :=
  2 * Real.arcsin (Real.sqrt
    (Real.sin ((b.1 - a.1) / 2) ^ 2 +
      Real.cos a.1 * Real.cos b.1 * Real.sin ((b.2 - a.2) / 2) ^ 2))

/-- Minimum unit-sphere distance from `target` to a non-empty point list
(`tree.query(imovel_coords, k=1)`, app2.py line 157). -/
noncomputable def nearestDistUnit (target : ℝ × ℝ) : List (ℝ × ℝ) → ℝ
  | [] => 0
  | p :: ps => ps.foldl (fun acc q => min acc (haversineUnit target q)) (haversineUnit target p)

/-- `tree.query_radius(imovel_coords, r=radius/6371000, count_only=True)`
(app2.py lines 161-165): number of indexed points whose unit-sphere
haversine distance to the target is at most `radius / 6371000`. -/
noncomputable def count_within_radius (pts : List (ℝ × ℝ)) (target : ℝ × ℝ) (radius : ℝ) : ℕ :=
  pts.countP (fun p => decide (haversineUnit target p ≤ radius / 6371000))

/-- Modelled from the spec: the brute-force O(n) reference count — the
number of POIs whose haversine distance in meters (unit-sphere distance
scaled by the Earth radius 6,371,000 m) to the target is ≤ the radius. -/
noncomputable def bruteForceCount (pts : List (ℝ × ℝ)) (target : ℝ × ℝ) (radius : ℝ) : ℕ :=
  pts.countP (fun p => decide (6371000 * haversineUnit target p ≤ radius))

/-- The loop body of `calcular_poi_features` (app2.py lines 143-167) for one
category: `pts` is the category's POI set after dropping rows without
coordinates; returns (`dist_*_mais_proximo` in meters, possibly NaN;
`qtd_*_{radius}m`).  Empty set → (NaN, 0); otherwise nearest distance is
the BallTree minimum scaled by 6,371,000 and the count is the radius query. -/
noncomputable def calcular_poi_features (pts : List (ℝ × ℝ)) (target : ℝ × ℝ) (radius : ℝ) :
    Option ℝ × ℕ :=
  if pts = [] then (none, 0)
  else (some (nearestDistUnit target pts * 6371000), count_within_radius pts target radius)

/- ============================================================
   Dataset Assembler pieces (src/features.py `prepare_dataset`).
   ============================================================ -/

/-- pandas `Series.clip(lower=lo)` on one value. -/
noncomputable def clip_lower (x lo : ℝ) : ℝ :=
  max x lo

/-- `log_preco` (src/features.py line 140): `np.log(preco.clip(lower=1))`. -/
noncomputable def log_preco (preco : ℝ) : ℝ :=
  Real.log (clip_lower preco 1)

/-- pandas `Series.median()` over a column with NaNs dropped (skipna):
`none` (NaN) when no non-missing value exists, else the middle element of
the sorted values (mean of the two middle elements for even length). -/
noncomputable def pandasMedian (xs : List ℝ) : Option ℝ :=
  if xs = [] then none
  else
    let ys := xs.mergeSort (fun a b => decide (a ≤ b))
    let n := ys.length
    if n % 2 = 1 then some (ys.getD (n / 2) 0)
    else some ((ys.getD (n / 2 - 1) 0 + ys.getD (n / 2) 0) / 2)

/-- `x.fillna(x.median())` on one column (src/features.py line 144):
when the column's median is NaN (all values missing) `fillna(NaN)` is a
no-op and the column passes through unchanged; otherwise every missing
entry is replaced by the median. -/
noncomputable def fillnaMedian (col : List (Option ℝ)) : List (Option ℝ) :=
  match pandasMedian (col.filterMap id) with
  | none => col
  | some m => col.map (fun x => some (x.getD m))

/- ============================================================
   Feature rows: training (prepare_dataset + NUM_FEATURES/CAT_FEATURES
   selection in train.py) versus inference (predict, src/predict.py
   lines 101-125).  Both select the columns
   NUM_FEATURES ++ CAT_FEATURES in that order.
   ============================================================ -/

/-- The raw structural attributes and proximity scores of one record, as
shared by the training row and the inference input dict. -/
structure RawRecord where
  quartos : ℝ
  banheiros : ℝ
  vagas_garagem : ℝ
  area_m2 : ℝ
  score_escola_privada : ℝ
  score_escola_publica : ℝ
  score_hospitais : ℝ
  score_mercado : ℝ
  score_farmacia : ℝ
  score_parque : ℝ
  score_seguranca : ℝ
  bairro : String

/-- The numeric feature values of a record in `NUM_FEATURES` order
(src/features.py lines 153-165). -/
def numFeatureValues (r : RawRecord) : List ℝ :=
  [r.quartos, r.banheiros, r.vagas_garagem, r.area_m2,
   r.score_escola_privada, r.score_escola_publica, r.score_hospitais,
   r.score_mercado, r.score_farmacia, r.score_parque, r.score_seguranca]

/-- The training-path feature row: numeric features in `NUM_FEATURES` order,
then the categorical features `bairro` and `faixa_area`, the latter from
`add_faixa_area`'s `pd.cut` (possibly missing). -/
noncomputable def trainFeatureRow (r : RawRecord) : List ℝ × String × Option String :=
  (numFeatureValues r, r.bairro, cut_faixa_area r.area_m2)

/-- The inference-path feature row emitted by `predict` on the same raw
inputs (no `faixa_area` supplied): same column order, `faixa_area`
derived by the if/elif chain of src/predict.py lines 101-115. -/
noncomputable def predictFeatureRow (r : RawRecord) : List ℝ × String × Option String :=
  (numFeatureValues r, r.bairro, some (predict_faixa_area r.area_m2))

/- ============================================================
   Concrete records used by counterexamples and witnesses.
   ============================================================ -/

/-- A record whose area is exactly 0 (all other fields arbitrary). -/
def zeroAreaRecord : RawRecord :=
  ⟨3, 2, 1, 0, 0, 0, 0, 0, 0, 0, 0, "Centro"⟩

/-- A record with a positive area of 120 m². -/
def area120Record : RawRecord :=
  ⟨3, 2, 1, 120, 0, 0, 0, 0, 0, 0, 0, "Centro"⟩

/-- The proximity features of a location with every POI set empty:
every distance is NaN and every count is 0. -/
def emptyPoiFeatures : PoiFeatures :=
  ⟨none, 0, none, 0, none, 0, none, 0, none, 0, none, 0, none, 0⟩

/-- Proximity features with exactly one private school at 300 m and
everything else empty. -/
def schoolAt300 : PoiFeatures :=
  ⟨some 300, 1, none, 0, none, 0, none, 0, none, 0, none, 0, none, 0⟩

/- ============================================================
   Helper lemmas.
   ============================================================ -/

/-- The two area-bucket derivations agree on every strictly positive area. -/
theorem cut_faixa_area_pos (a : ℝ) (h : 0 < a) :
    cut_faixa_area a = some (predict_faixa_area a) := by
  unfold cut_faixa_area predict_faixa_area
  split_ifs <;> first | rfl | (exfalso; simp_all)

/-- The unit-sphere haversine distance is non-negative. -/
theorem haversineUnit_nonneg (a b : ℝ × ℝ) : 0 ≤ haversineUnit a b := by
  unfold haversineUnit
  have h := Real.arcsin_nonneg.mpr (Real.sqrt_nonneg
    (Real.sin ((b.1 - a.1) / 2) ^ 2 +
      Real.cos a.1 * Real.cos b.1 * Real.sin ((b.2 - a.2) / 2) ^ 2))
  linarith

/-- Folding `min` with non-negative distances keeps a non-negative
accumulator non-negative. -/
theorem foldl_min_nonneg (t : ℝ × ℝ) :
    ∀ (l : List (ℝ × ℝ)) (acc : ℝ), 0 ≤ acc →
      0 ≤ l.foldl (fun acc q => min acc (haversineUnit t q)) acc
  | [], _, h => h
  | q :: l, acc, h =>
      foldl_min_nonneg t l (min acc (haversineUnit t q))
        (le_min h (haversineUnit_nonneg t q))

/-- The nearest-neighbour distance is non-negative. -/
theorem nearestDistUnit_nonneg (t : ℝ × ℝ) (pts : List (ℝ × ℝ)) :
    0 ≤ nearestDistUnit t pts := by
  cases pts with
  | nil => exact le_refl 0
  | cons p ps => exact foldl_min_nonneg t ps _ (haversineUnit_nonneg t p)

/-- `exp(-1/2)` lies strictly between `1/1.6488` and `1/1.6486`. -/
theorem exp_neg_half_bounds :
    (1.6488 : ℝ)⁻¹ < Real.exp (-(1 / 2)) ∧ Real.exp (-(1 / 2)) < (1.6486 : ℝ)⁻¹ := by
  have hsq : Real.exp (1 / 2) * Real.exp (1 / 2) = Real.exp 1 := by
    rw [← Real.exp_add]; norm_num
  have hub : Real.exp (1 / 2) < 1.6488 := by
    have h2 : Real.exp (1 / 2) ^ 2 < (1.6488 : ℝ) ^ 2 := by
      nlinarith [Real.exp_one_lt_d9, hsq]
    exact lt_of_pow_lt_pow_left 2 (by norm_num) h2
  have hlb : (1.6486 : ℝ) < Real.exp (1 / 2) := by
    have h2 : (1.6486 : ℝ) ^ 2 < Real.exp (1 / 2) ^ 2 := by
      nlinarith [Real.exp_one_gt_d9, hsq]
    exact lt_of_pow_lt_pow_left 2 (Real.exp_pos _).le h2
  constructor
  · rw [Real.exp_neg]
    exact inv_lt_inv_of_lt (Real.exp_pos _) hub
  · rw [Real.exp_neg]
    exact inv_lt_inv_of_lt (by norm_num) hlb

/-- The score formula is non-increasing in distance for non-negative
exponential weight and positive decay. -/
theorem score_formula_anti_dist (we decay wc : ℝ) (hwe : 0 ≤ we) (hdecay : 0 < decay)
    (d d' c : ℝ) (h : d ≤ d') :
    score_formula we decay wc d' c ≤ score_formula we decay wc d c := by
  unfold score_formula
  have hdiv : -d' / decay ≤ -d / decay :=
    (div_le_div_right hdecay).mpr (neg_le_neg h)
  have hexp : Real.exp (-d' / decay) ≤ Real.exp (-d / decay) :=
    Real.exp_le_exp.mpr hdiv
  have := mul_le_mul_of_nonneg_left hexp hwe
  linarith

/-- The score formula is non-decreasing in count for non-negative count
weight. -/
theorem score_formula_mono_count (we decay wc d : ℝ) (hwc : 0 ≤ wc)
    (c c' : ℝ) (h : c ≤ c') :
    score_formula we decay wc d c ≤ score_formula we decay wc d c' := by
  unfold score_formula
  have := mul_le_mul_of_nonneg_left h hwc
  linarith

/-- `countP` only depends on the predicate's values on the list. -/
theorem countP_congr_local {α : Type} (p q : α → Bool) :
    ∀ l : List α, (∀ a ∈ l, p a = q a) → l.countP p = l.countP q
  | [], _ => rfl
  | a :: l, h => by
    have ha := h a (List.mem_cons_self a l)
    rw [List.countP_cons, List.countP_cons, ha,
      countP_congr_local p q l (fun b hb => h b (List.mem_cons_of_mem a hb))]

/- ============================================================
   Claim theorems.
   ============================================================ -/

/-- C1 counterexample: with an empty private-school POI set (NaN distance,
count 0) neither score path returns `weight_count * count = 0`; both return
NaN (the undefined distance propagates). -/
theorem C1_empty_index_score_not_zero :
    (add_poi_scores emptyPoiFeatures).score_escola_privada ≠ some (0.6 * 0) ∧
    (calcular_scores emptyPoiFeatures).score_escola_privada ≠ some (0.6 * 0) := by
  have h1 : (add_poi_scores emptyPoiFeatures).score_escola_privada = none := rfl
  have h2 : (calcular_scores emptyPoiFeatures).score_escola_privada = none := rfl
  rw [h1, h2]
  exact ⟨fun h => Option.noConfusion h, fun h => Option.noConfusion h⟩

/-- C1 (amended): for every POI category whose distance feature is undefined
(empty usable POI set), the score computed by both the training-time bulk
path (`add_poi_scores`) and the inference path (`calcular_scores`) is itself
undefined (NaN): the undefined distance propagates through the exponential
term; the score is not `weight_count * count`. -/
theorem C1_empty_index_score_nan (f : PoiFeatures) :
    (f.dist_escolas_privadas_mais_proximo = none →
      (add_poi_scores f).score_escola_privada = none ∧
      (calcular_scores f).score_escola_privada = none) ∧
    (f.dist_escola_publicas_mais_proximo = none →
      (add_poi_scores f).score_escola_publica = none ∧
      (calcular_scores f).score_escola_publica = none) ∧
    (f.dist_hospital_mais_proximo = none →
      (add_poi_scores f).score_hospitais = none ∧
      (calcular_scores f).score_hospitais = none) ∧
    (f.dist_mercado_mais_proximo = none →
      (add_poi_scores f).score_mercado = none ∧
      (calcular_scores f).score_mercado = none) ∧
    (f.dist_farmacia_mais_proximo = none →
      (add_poi_scores f).score_farmacia = none ∧
      (calcular_scores f).score_farmacia = none) ∧
    (f.dist_parque_mais_proximo = none →
      (add_poi_scores f).score_parque = none ∧
      (calcular_scores f).score_parque = none) ∧
    (f.dist_policia_mais_proximo = none →
      (add_poi_scores f).score_seguranca = none ∧
      (calcular_scores f).score_seguranca = none) := by
  refine ⟨fun h => ?_, fun h => ?_, fun h => ?_, fun h => ?_, fun h => ?_,
    fun h => ?_, fun h => ?_⟩ <;>
    exact ⟨by simp only [add_poi_scores]; rw [h]; rfl,
      by simp only [calcular_scores]; rw [h]; rfl⟩

/-- C1 witness: the amended claim applied to the all-empty feature vector. -/
theorem C1_empty_index_score_nan_witness :
    (add_poi_scores emptyPoiFeatures).score_escola_privada = none ∧
    (calcular_scores emptyPoiFeatures).score_escola_privada = none :=
  (C1_empty_index_score_nan emptyPoiFeatures).1 rfl

/-- C2 counterexample: on a record with area exactly 0 the training row and
the inference row differ — `pd.cut` assigns no bucket (NaN) while `predict`
assigns "Até 50". -/
theorem C2_roundtrip_counterexample :
    trainFeatureRow zeroAreaRecord ≠ predictFeatureRow zeroAreaRecord := by
  intro h
  have h3 := congrArg (fun p : List ℝ × String × Option String => p.2.2) h
  simp only [trainFeatureRow, predictFeatureRow] at h3
  norm_num [cut_faixa_area, zeroAreaRecord] at h3
  exact Option.noConfusion h3

/-- C2 (amended): for every record whose area is strictly positive, the
feature row emitted by the Inference Adapter (`predict`) has exactly the
same column set, order and values — including the area-bucket label — as
the training row; at area = 0 (or negative) the training bucket is missing
while inference assigns "Até 50". -/
theorem C2_roundtrip_parity (r : RawRecord) (h : 0 < r.area_m2) :
    trainFeatureRow r = predictFeatureRow r := by
  unfold trainFeatureRow predictFeatureRow
  rw [cut_faixa_area_pos r.area_m2 h]

/-- C2 witness: the amended claim applied to a record of area 120. -/
theorem C2_roundtrip_parity_witness :
    trainFeatureRow area120Record = predictFeatureRow area120Record :=
  C2_roundtrip_parity area120Record (by norm_num [area120Record])

/-- C4 counterexample: area 0 is non-negative yet `pd.cut` over the bins
[0, 50, 80, 120, 200, 400, inf] assigns it no label at all. -/
theorem C4_zero_area_unlabelled :
    (0 : ℝ) ≤ 0 ∧ cut_faixa_area 0 = none := by
  constructor
  · exact le_refl 0
  · norm_num [cut_faixa_area]

/-- C4 (amended): area bucketing is a total non-overlapping partition of the
strictly positive areas — every area > 0 gets exactly one of the six labels,
and the boundary values 50, 80, 120, 200, 400 each map to the lower bucket;
area = 0 (although non-negative) gets no label. -/
theorem C4_area_bucket_partition :
    (∀ a : ℝ, 0 < a → ∃ l, cut_faixa_area a = some l ∧ l ∈ AREA_LABELS) ∧
    cut_faixa_area 50 = some "Até 50" ∧
    cut_faixa_area 80 = some "50–80" ∧
    cut_faixa_area 120 = some "80–120" ∧
    cut_faixa_area 200 = some "120–200" ∧
    cut_faixa_area 400 = some "200–400" ∧
    cut_faixa_area 0 = none := by
  refine ⟨fun a ha => ?_, ?_, ?_, ?_, ?_, ?_, ?_⟩
  · unfold cut_faixa_area
    split_ifs with h1 h2 h3 h4 h5 h6
    · exact ⟨"Até 50", rfl, by simp [AREA_LABELS]⟩
    · exact ⟨"50–80", rfl, by simp [AREA_LABELS]⟩
    · exact ⟨"80–120", rfl, by simp [AREA_LABELS]⟩
    · exact ⟨"120–200", rfl, by simp [AREA_LABELS]⟩
    · exact ⟨"200–400", rfl, by simp [AREA_LABELS]⟩
    · exact ⟨"400+", rfl, by simp [AREA_LABELS]⟩
    · exfalso
      push_neg at h1 h2 h3 h4 h5 h6
      have g1 := h1 ha
      have g2 := h2 (by linarith)
      have g3 := h3 (by linarith)
      have g4 := h4 (by linarith)
      have g5 := h5 (by linarith)
      linarith
  · norm_num [cut_faixa_area]
  · norm_num [cut_faixa_area]
  · norm_num [cut_faixa_area]
  · norm_num [cut_faixa_area]
  · norm_num [cut_faixa_area]
  · norm_num [cut_faixa_area]

/-- C4 witness: the amended claim's totality conjunct at area 70. -/
theorem C4_area_bucket_partition_witness :
    ∃ l, cut_faixa_area 70 = some l ∧ l ∈ AREA_LABELS :=
  C4_area_bucket_partition.1 70 (by norm_num)

/-- C6: the Dataset Assembler computes `log_preco = ln(max(preco, 1))`;
a price of 0 yields exactly 0 and the result is never negative. -/
theorem C6_log_price_clamp :
    (∀ p : ℝ, log_preco p = Real.log (max p 1)) ∧
    log_preco 0 = 0 ∧
    (∀ p : ℝ, 0 ≤ log_preco p) := by
  refine ⟨fun p => rfl, ?_, fun p => ?_⟩
  · norm_num [log_preco, clip_lower]
  · exact Real.log_nonneg (le_max_right p 1)

/-- C7: `classificar_tipo_imovel` matches case-insensitive substrings against
the fixed keyword groups in precedence order land/lot → apartment-family →
house-family → commercial-family → building → "outros", first match winning;
in particular a text containing both "apartamento" and "casa" classifies as
"apartamento", and one containing both "casa" and "comercial" as "casa". -/
theorem C7_classificar_precedence :
    (∀ s : String,
      (strIn "terreno" (lowerStr s) || strIn "lote" (lowerStr s)) = true →
      classificar_tipo_imovel (some s) = "terreno") ∧
    (∀ s : String,
      (strIn "terreno" (lowerStr s) || strIn "lote" (lowerStr s)) = false →
      (apartamentoKeywords.any (fun x => strIn x (lowerStr s))) = true →
      classificar_tipo_imovel (some s) = "apartamento") ∧
    (∀ s : String,
      (strIn "terreno" (lowerStr s) || strIn "lote" (lowerStr s)) = false →
      (apartamentoKeywords.any (fun x => strIn x (lowerStr s))) = false →
      (casaKeywords.any (fun x => strIn x (lowerStr s))) = true →
      classificar_tipo_imovel (some s) = "casa") ∧
    (∀ s : String,
      (strIn "terreno" (lowerStr s) || strIn "lote" (lowerStr s)) = false →
      (apartamentoKeywords.any (fun x => strIn x (lowerStr s))) = false →
      (casaKeywords.any (fun x => strIn x (lowerStr s))) = false →
      (comercialKeywords.any (fun x => strIn x (lowerStr s))) = true →
      classificar_tipo_imovel (some s) = "comercial") ∧
    (∀ s : String,
      (strIn "terreno" (lowerStr s) || strIn "lote" (lowerStr s)) = false →
      (apartamentoKeywords.any (fun x => strIn x (lowerStr s))) = false →
      (casaKeywords.any (fun x => strIn x (lowerStr s))) = false →
      (comercialKeywords.any (fun x => strIn x (lowerStr s))) = false →
      (strIn "prédio" (lowerStr s) || strIn "edificio" (lowerStr s) ||
        strIn "edifício" (lowerStr s)) = true →
      classificar_tipo_imovel (some s) = "predio") ∧
    (∀ s : String,
      (strIn "terreno" (lowerStr s) || strIn "lote" (lowerStr s)) = false →
      (apartamentoKeywords.any (fun x => strIn x (lowerStr s))) = false →
      (casaKeywords.any (fun x => strIn x (lowerStr s))) = false →
      (comercialKeywords.any (fun x => strIn x (lowerStr s))) = false →
      (strIn "prédio" (lowerStr s) || strIn "edificio" (lowerStr s) ||
        strIn "edifício" (lowerStr s)) = false →
      classificar_tipo_imovel (some s) = "outros") ∧
    classificar_tipo_imovel (some "Apartamento com casa de hóspedes") = "apartamento" ∧
    classificar_tipo_imovel (some "Casa comercial") = "casa" := by
  refine ⟨fun s h1 => ?_, fun s h1 h2 => ?_, fun s h1 h2 h3 => ?_,
    fun s h1 h2 h3 h4 => ?_, fun s h1 h2 h3 h4 h5 => ?_,
    fun s h1 h2 h3 h4 h5 => ?_, ?_, ?_⟩
  · simp [classificar_tipo_imovel, h1]
  · simp [classificar_tipo_imovel, h1, h2]
  · simp [classificar_tipo_imovel, h1, h2, h3]
  · simp [classificar_tipo_imovel, h1, h2, h3, h4]
  · simp [classificar_tipo_imovel, h1, h2, h3, h4, h5]
  · simp [classificar_tipo_imovel, h1, h2, h3, h4, h5]
  · decide
  · decide

/-- C7 witness: the precedence conjuncts applied to concrete inputs. -/
theorem C7_classificar_precedence_witness :
    classificar_tipo_imovel (some "Lote 12 no centro") = "terreno" :=
  C7_classificar_precedence.1 "Lote 12 no centro" (by decide)

/-- C10: `classificar_tipo_imovel` is total and always returns one of the six
category strings; missing (NaN) input maps to "outros". -/
theorem C10_classificar_total :
    (∀ t : Option String, classificar_tipo_imovel t ∈ tipoLabels) ∧
    classificar_tipo_imovel none = "outros" := by
  constructor
  · intro t
    match t with
    | none => simp [classificar_tipo_imovel, tipoLabels]
    | some s =>
      simp only [classificar_tipo_imovel, tipoLabels]
      split_ifs <;> simp
  · rfl

/-- C3: for every target location and POI coordinate set, the indexed
radius query (`query_radius` at `r = radius/6371000` on the unit sphere)
returns exactly the brute-force count of POIs at haversine distance in
meters ≤ the configured radius (boundary inclusive), and returns 0 on the
empty set. -/
theorem C3_count_within_radius_exact (pts : List (ℝ × ℝ)) (target : ℝ × ℝ) (radius : ℝ) :
    count_within_radius pts target radius = bruteForceCount pts target radius ∧
    count_within_radius [] target radius = 0 := by
  constructor
  · unfold count_within_radius bruteForceCount
    apply countP_congr_local
    intro p _
    have h0 : (0 : ℝ) < 6371000 := by norm_num
    have hiff : (haversineUnit target p ≤ radius / 6371000) ↔
        (6371000 * haversineUnit target p ≤ radius) := by
      rw [le_div_iff h0, mul_comm]
    exact decide_eq_decide.mpr hiff
  · rfl

/-- C9: `calcular_poi_features` always returns a natural-number count and a
distance that is either a non-negative real or undefined; the distance is
undefined exactly when the usable POI set is empty, in which case the count
is exactly 0. -/
theorem C9_poi_features_invariant (pts : List (ℝ × ℝ)) (target : ℝ × ℝ) (radius : ℝ) :
    ((calcular_poi_features pts target radius).1 = none ↔ pts = []) ∧
    (pts = [] → (calcular_poi_features pts target radius).2 = 0) ∧
    (∀ d : ℝ, (calcular_poi_features pts target radius).1 = some d → 0 ≤ d) := by
  by_cases hp : pts = []
  · subst hp
    refine ⟨by simp [calcular_poi_features], fun _ => by simp [calcular_poi_features], ?_⟩
    intro d hd
    simp [calcular_poi_features] at hd
  · refine ⟨by simp [calcular_poi_features, hp], fun h => absurd h hp, ?_⟩
    intro d hd
    simp [calcular_poi_features, hp] at hd
    rw [← hd]
    exact mul_nonneg (nearestDistUnit_nonneg target pts) (by norm_num)

/-- C9 witness: the invariant applied to the empty POI set — the count is 0. -/
theorem C9_poi_features_invariant_witness :
    (calcular_poi_features ([] : List (ℝ × ℝ)) (0, 0) 500).2 = 0 :=
  (C9_poi_features_invariant [] (0, 0) 500).2.1 rfl

/-- C8: evaluation at the failing input — a numeric column that is entirely
missing after the property-type filter has a NaN median; `fillna(NaN)` is a
no-op, so the column passes through silently unchanged (still all missing):
the undefined median is not surfaced to the caller. -/
theorem C8_all_missing_column_silent :
    fillnaMedian [none, none] = [none, none] := rfl

set_option maxHeartbeats 1000000 in
/-- C5: every category's score in both paths equals
`weight_exp * exp(-distance/decay) + weight_count * count` with its
compiled-in constants; the private-school score at distance 300 and count 1
is within 0.01 of 1.328; and the formula is non-increasing in distance
and non-decreasing in count for every category's constants. -/
theorem C5_score_formula_correct :
    (∀ f : PoiFeatures, ∀ d : ℝ,
      f.dist_escolas_privadas_mais_proximo = some d →
      (add_poi_scores f).score_escola_privada =
        some (score_formula 1.2 600 0.6 d f.qtd_escolas_privadas_500m) ∧
      (calcular_scores f).score_escola_privada =
        some (score_formula 1.2 600 0.6 d f.qtd_escolas_privadas_500m)) ∧
    (∀ f : PoiFeatures, ∀ d : ℝ,
      f.dist_escola_publicas_mais_proximo = some d →
      (add_poi_scores f).score_escola_publica =
        some (score_formula 0.6 600 0.2 d f.qtd_escola_publicas_500m) ∧
      (calcular_scores f).score_escola_publica =
        some (score_formula 0.6 600 0.2 d f.qtd_escola_publicas_500m)) ∧
    (∀ f : PoiFeatures, ∀ d : ℝ,
      f.dist_hospital_mais_proximo = some d →
      (add_poi_scores f).score_hospitais =
        some (score_formula 0.8 1200 0.4 d f.qtd_hospital_1000m) ∧
      (calcular_scores f).score_hospitais =
        some (score_formula 0.8 1200 0.4 d f.qtd_hospital_1000m)) ∧
    (∀ f : PoiFeatures, ∀ d : ℝ,
      f.dist_mercado_mais_proximo = some d →
      (add_poi_scores f).score_mercado =
        some (score_formula 1.0 400 0.4 d f.qtd_mercado_500m) ∧
      (calcular_scores f).score_mercado =
        some (score_formula 1.0 400 0.4 d f.qtd_mercado_500m)) ∧
    (∀ f : PoiFeatures, ∀ d : ℝ,
      f.dist_farmacia_mais_proximo = some d →
      (add_poi_scores f).score_farmacia =
        some (score_formula 0.6 300 0.2 d f.qtd_farmacia_300m) ∧
      (calcular_scores f).score_farmacia =
        some (score_formula 0.6 300 0.2 d f.qtd_farmacia_300m)) ∧
    (∀ f : PoiFeatures, ∀ d : ℝ,
      f.dist_parque_mais_proximo = some d →
      (add_poi_scores f).score_parque =
        some (score_formula 1.2 1200 0.8 d f.qtd_parque_1000m) ∧
      (calcular_scores f).score_parque =
        some (score_formula 1.2 1200 0.8 d f.qtd_parque_1000m)) ∧
    (∀ f : PoiFeatures, ∀ d : ℝ,
      f.dist_policia_mais_proximo = some d →
      (add_poi_scores f).score_seguranca =
        some (score_formula 1.0 1500 0.3 d f.qtd_policia_500m) ∧
      (calcular_scores f).score_seguranca =
        some (score_formula 1.0 1500 0.3 d f.qtd_policia_500m)) ∧
    |score_formula 1.2 600 0.6 300 1 - 1.328| < 1 / 100 ∧
    (∀ cfg ∈ catConfigs, ∀ d dd c : ℝ, d ≤ dd →
      score_formula cfg.we cfg.decay cfg.wc dd c ≤ score_formula cfg.we cfg.decay cfg.wc d c) ∧
    (∀ cfg ∈ catConfigs, ∀ d c cc : ℝ, c ≤ cc →
      score_formula cfg.we cfg.decay cfg.wc d c ≤ score_formula cfg.we cfg.decay cfg.wc d cc) := by
  refine ⟨?_, ?_, ?_, ?_, ?_, ?_, ?_, ?_, ?_, ?_⟩
  · intro f d h
    exact ⟨by simp only [add_poi_scores]; rw [h]; simp [oAdd, oMul, oExp, oDiv, oNeg, score_formula],
      by simp only [calcular_scores]; rw [h]; simp [oAdd, oMul, oExp, oDiv, oNeg, score_formula]⟩
  · intro f d h
    exact ⟨by simp only [add_poi_scores]; rw [h]; simp [oAdd, oMul, oExp, oDiv, oNeg, score_formula],
      by simp only [calcular_scores]; rw [h]; simp [oAdd, oMul, oExp, oDiv, oNeg, score_formula]⟩
  · intro f d h
    exact ⟨by simp only [add_poi_scores]; rw [h]; simp [oAdd, oMul, oExp, oDiv, oNeg, score_formula],
      by simp only [calcular_scores]; rw [h]; simp [oAdd, oMul, oExp, oDiv, oNeg, score_formula]⟩
  · intro f d h
    exact ⟨by simp only [add_poi_scores]; rw [h]; simp [oAdd, oMul, oExp, oDiv, oNeg, score_formula],
      by simp only [calcular_scores]; rw [h]; simp [oAdd, oMul, oExp, oDiv, oNeg, score_formula]⟩
  · intro f d h
    exact ⟨by simp only [add_poi_scores]; rw [h]; simp [oAdd, oMul, oExp, oDiv, oNeg, score_formula],
      by simp only [calcular_scores]; rw [h]; simp [oAdd, oMul, oExp, oDiv, oNeg, score_formula]⟩
  · intro f d h
    exact ⟨by simp only [add_poi_scores]; rw [h]; simp [oAdd, oMul, oExp, oDiv, oNeg, score_formula],
      by simp only [calcular_scores]; rw [h]; simp [oAdd, oMul, oExp, oDiv, oNeg, score_formula]⟩
  · intro f d h
    exact ⟨by simp only [add_poi_scores]; rw [h]; simp [oAdd, oMul, oExp, oDiv, oNeg, score_formula],
      by simp only [calcular_scores]; rw [h]; simp [oAdd, oMul, oExp, oDiv, oNeg, score_formula]⟩
  · obtain ⟨hl, hu⟩ := exp_neg_half_bounds
    unfold score_formula
    have h300 : (-(300 : ℝ)) / 600 = -(1 / 2) := by norm_num
    rw [h300, abs_lt]
    norm_num at hl hu ⊢
    constructor <;> nlinarith
  · intro cfg hcfg d dd c h
    have hc : 0 ≤ cfg.we ∧ 0 < cfg.decay := by
      simp only [catConfigs, List.mem_cons, List.not_mem_nil, or_false] at hcfg
      rcases hcfg with rfl | rfl | rfl | rfl | rfl | rfl | rfl <;> norm_num
    exact score_formula_anti_dist cfg.we cfg.decay cfg.wc hc.1 hc.2 d dd c h
  · intro cfg hcfg d c cc h
    have hc : 0 ≤ cfg.wc := by
      simp only [catConfigs, List.mem_cons, List.not_mem_nil, or_false] at hcfg
      rcases hcfg with rfl | rfl | rfl | rfl | rfl | rfl | rfl <;> norm_num
    exact score_formula_mono_count cfg.we cfg.decay cfg.wc d hc c cc h

/-- C5 witness: the private-school link applied to the one-school-at-300m
feature vector. -/
theorem C5_score_formula_correct_witness :
    (add_poi_scores schoolAt300).score_escola_privada =
      some (score_formula 1.2 600 0.6 300 1) ∧
    (calcular_scores schoolAt300).score_escola_privada =
      some (score_formula 1.2 600 0.6 300 1) :=
  C5_score_formula_correct.1 schoolAt300 300 rfl

end PriceHouse
